import Mathlib

/-
Shallow embedding of the authentication/session layer of the repository:
the session composer hook in src/util/auth.js (usePrepareUser, handleAuth,
updateProfile, confirmPasswordReset, the onChange subscription, requireAuth)
and the serverless token-exchange route (auth-firebase-token handler).

React state and promise chains are modelled by pure functions: hooks whose
result depends only on their inputs become functions of those inputs, and
effectful sequences (handleAuth, updateProfile) become the list of external
actions they perform, in order.  A JavaScript computation that throws
(a TypeError from reading a field of undefined) is modelled as Option.none.
-/

set_option autoImplicit false

namespace DivjoyAuth

/-! String constants used by auth.js, named so they can be referred to
    uniformly throughout the development. -/

def pipeSep : String := "|"

def emptyString : String := ""

def activeStatus : String := "active"

def trialingStatus : String := "trialing"

def signinRoute : String := "/auth/signin"

def canceledStatus : String := "canceled"

def nameKey : String := "name"

def pictureKey : String := "picture"

def notNeededCode : String := "not_needed"

def confirmPasswordResetMessage : String :=
  "Auth0 handles the password reset flow for you. You can remove this section or page."

def firebaseTokenErrorMessage : String :=
  "Something went wrong acquiring a Firebase token"

/-- Whether to merge extra user data from database into auth.user
    (constant MERGE_DB_USER in auth.js, set to true). -/
def MERGE_DB_USER : Bool := true

/-- The raw identity object delivered by Auth0 (fields of auth.user that
    usePrepareUser reads: sub, email, email_verified, name, picture). -/
structure AuthUser where
  sub : String
  email : String
  email_verified : Bool
  name : String
  picture : String
deriving DecidableEq

/-- The React auth state cell set by setUser: null while loading, false when
    signed out, or the Auth0 user object. -/
inductive RawUser where
  | null
  | false_
  | signedIn (u : AuthUser)
deriving DecidableEq

/-- The user document returned by the useUser database query: the two billing
    fields read by usePrepareUser plus arbitrary app-defined fields.
    An absent field is none (undefined in JavaScript). -/
structure DbUser where
  stripePriceId : Option String
  stripeSubscriptionStatus : Option String
  extra : List (String × String)
deriving DecidableEq

/-- The result of the useUser query, status in {idle, loading, error, success};
    on success, data is the document or null when no record exists. -/
inductive QueryResult where
  | idle
  | loading
  | error (e : String)
  | success (data : Option DbUser)
deriving DecidableEq

/-- An entry of the allProviders table in auth.js. -/
structure Provider where
  id : String
  name : String
deriving DecidableEq

/-- The allProviders table of auth.js, verbatim. -/
def allProviders : List Provider :=
  [ { id := "auth0", name := "password" },
    { id := "google-oauth2", name := "google" },
    { id := "facebook", name := "facebook" },
    { id := "twitter", name := "twitter" },
    { id := "github", name := "github" } ]

/-- The five provider ids that occur in the allProviders table. -/
def knownProviderIds : List String :=
  ["auth0", "google-oauth2", "facebook", "twitter", "github"]

/-- The populated final user object built by usePrepareUser: identity fields,
    the providers array, the merged database document (dbData, none until the
    success branch merges it) and the two derived fields planId and
    planIsActive (none while the corresponding field has not been assigned). -/
structure FinalUser where
  uid : String
  email : String
  emailVerified : Bool
  name : String
  picture : String
  providers : List String
  dbData : Option DbUser
  planId : Option String
  planIsActive : Option Bool
deriving DecidableEq

/-- The SessionUser value exposed as auth.user: null while loading, false when
    definitively unauthenticated, or a populated object. -/
inductive SessionUser where
  | null
  | false_
  | user (fu : FinalUser)
deriving DecidableEq

/-- JavaScript truthiness of an optional string field: undefined and the
    empty string are falsy. -/
def jsTruthyStr : Option String → Bool
  | none => false
  | some s => !s.isEmpty

/-- Characters of a string before the first pipe separator. -/
def takeUntilPipe : List Char → List Char
  | [] => []
  | c :: cs => if c = '|' then [] else c :: takeUntilPipe cs

/-- The provider id segment extracted from user.sub: the segment before the
    first pipe character, i.e. the first element of user.sub.split of auth.js
    line 215 (the whole string when no pipe occurs, empty for an empty sub). -/
def providerIdOf (sub : String) : String :=
  String.mk (takeUntilPipe sub.data)

/-- usePrepareUser of auth.js (lines 196-261), as a pure function of the raw
    auth state and the database query result.  The friendly-plan mapping
    getFriendlyPlanId lives in src/util/prices.js, which is not among the
    sources, so it is a parameter.  The Option result records whether the
    JavaScript computation produces a value at all: reading .name of the
    undefined result of allProviders.find for an unknown provider id throws,
    which is none here. -/
def usePrepareUser (getFriendlyPlanId : String → String)
    (user : RawUser) (userDbQuery : QueryResult) : Option SessionUser :=
  match user with
  | RawUser.null => some SessionUser.null
  | RawUser.false_ => some SessionUser.false_
  | RawUser.signedIn u =>
    match allProviders.find? (fun p => p.id == providerIdOf u.sub) with
    | none => none
    | some provider =>
      let finalUser : FinalUser :=
        { uid := u.sub
          email := u.email
          emailVerified := u.email_verified
          name := u.name
          picture := u.picture
          providers := [provider.name]
          dbData := none
          planId := none
          planIsActive := none }
      if MERGE_DB_USER then
        match userDbQuery with
        | QueryResult.idle => some SessionUser.null
        | QueryResult.loading => some SessionUser.null
        | QueryResult.error _ => some SessionUser.null
        | QueryResult.success none => some SessionUser.null
        | QueryResult.success (some data) =>
          some (SessionUser.user
            { finalUser with
              dbData := some data
              planId :=
                if jsTruthyStr data.stripePriceId then
                  some (getFriendlyPlanId (Option.getD data.stripePriceId emptyString))
                else none
              planIsActive :=
                some (match data.stripeSubscriptionStatus with
                  | some s => s == activeStatus || s == trialingStatus
                  | none => false) })
      else
        some (SessionUser.user finalUser)

/-! ### Route guard (requireAuth, auth.js lines 264-285) -/

/-- What the guarded component renders. -/
inductive GuardView where
  | pageLoader
  | component
deriving DecidableEq

/-- The redirect side effect of the requireAuth effect hook: history.replace
    to the sign-in route exactly when auth.user === false, otherwise no
    redirect. -/
def requireAuthRedirect (user : SessionUser) : Option String :=
  match user with
  | SessionUser.false_ => some signinRoute
  | _ => none

/-- The render result of requireAuth: the PageLoader placeholder while
    auth.user is falsy (null or false), the wrapped component otherwise. -/
def requireAuthRender (user : SessionUser) : GuardView :=
  match user with
  | SessionUser.user _ => GuardView.component
  | _ => GuardView.pageLoader

/-! ### The onChange subscription (auth.js lines 162-179) -/

/-- The raw auth state published by the auth0 onChange callback: the user
    object when the notification carries one (after waiting on Firebase),
    false when it carries none. -/
def onChangePublish (notified : Option AuthUser) : RawUser :=
  match notified with
  | some u => RawUser.signedIn u
  | none => RawUser.false_

/-! ### handleAuth (auth.js lines 49-64) and the user-record store -/

/-- One awaited step of the handleAuth sequence. -/
inductive AuthAction where
  | setFirebaseToken
  | waitForFirebase
  | createUser (uid : String) (email : String)
  | setUser (u : AuthUser)
deriving DecidableEq

/-- handleAuth of auth.js: the sequence of awaited steps run on every
    successful sign-up / sign-in, in source order: exchange the token, wait
    for Firebase, create the user record, publish the identity. -/
def handleAuth (u : AuthUser) : List AuthAction :=
  [ AuthAction.setFirebaseToken,
    AuthAction.waitForFirebase,
    AuthAction.createUser u.sub u.email,
    AuthAction.setUser u ]

/-- The fields handleAuth passes to createUser. -/
structure UserRecordFields where
  email : String
deriving DecidableEq

/-- Modelled from the spec: the Data Store Client operation createRecord(id,
    fields) — the createUser function of src/util/db.js, a file not among the
    sources — which, per the spec, creates the UserRecord only when a record
    for this id is absent ("create the UserRecord if absent", "created
    exactly once per identity"). -/
def createRecord (store : List (String × UserRecordFields))
    (id : String) (fields : UserRecordFields) : List (String × UserRecordFields) :=
  if store.any (fun p => p.fst == id) then store else store ++ [(id, fields)]

/-- Runs a list of handleAuth actions against the user-record store; only
    createUser touches the store. -/
def runAuthActions : List (String × UserRecordFields) → List AuthAction →
    List (String × UserRecordFields)
  | store, [] => store
  | store, AuthAction.createUser id email :: rest =>
      runAuthActions (createRecord store id { email := email }) rest
  | store, AuthAction.setFirebaseToken :: rest => runAuthActions store rest
  | store, AuthAction.waitForFirebase :: rest => runAuthActions store rest
  | store, AuthAction.setUser _ :: rest => runAuthActions store rest

/-! ### updateProfile (auth.js lines 138-160) -/

/-- The argument of updateProfile: the three identity-provider-writable
    fields plus arbitrary further fields. An absent field is none. -/
structure ProfileData where
  email : Option String
  name : Option String
  picture : Option String
  extra : List (String × String)
deriving DecidableEq

/-- One awaited external call of updateProfile (and of other composer
    operations). -/
inductive ProfileAction where
  | authUpdateEmail (email : String)
  | authUpdateProfile (fields : List (String × String))
  | dbUpdateUser (uid : String) (data : ProfileData)
  | authGetCurrentUser
deriving DecidableEq

/-- updateProfile of auth.js as the ordered list of external calls it awaits:
    the auth0 email update when email is truthy, the auth0 profile update
    when name or picture is truthy, then the database write of the full data,
    then the re-read of the current identity. -/
def updateProfile (uid : String) (data : ProfileData) : List ProfileAction :=
  (if jsTruthyStr data.email then
    [ProfileAction.authUpdateEmail (Option.getD data.email emptyString)]
  else []) ++
  (if jsTruthyStr data.name || jsTruthyStr data.picture then
    [ProfileAction.authUpdateProfile
      ((if jsTruthyStr data.name then
          [(nameKey, Option.getD data.name emptyString)] else []) ++
       (if jsTruthyStr data.picture then
          [(pictureKey, Option.getD data.picture emptyString)] else []))]
  else []) ++
  [ProfileAction.dbUpdateUser uid data, ProfileAction.authGetCurrentUser]

/-- True of the actions that write to the identity provider. -/
def isIdentityWrite : ProfileAction → Bool
  | ProfileAction.authUpdateEmail _ => true
  | ProfileAction.authUpdateProfile _ => true
  | _ => false

/-- True of the actions that write to the data store. -/
def isStoreWrite : ProfileAction → Bool
  | ProfileAction.dbUpdateUser _ _ => true
  | _ => false

/-! ### confirmPasswordReset (auth.js lines 115-124) -/

/-- The CustomError carried by rejected composer operations (util.js). -/
structure CustomError where
  code : String
  message : String
deriving DecidableEq

/-- confirmPasswordReset of auth.js: performs no external call and rejects
    with a fixed CustomError, for every input. The first component is the
    list of external calls performed (none), the second the outcome. -/
def confirmPasswordReset (_password _code : String) :
    List ProfileAction × Except CustomError Unit :=
  ([], Except.error { code := notNeededCode, message := confirmPasswordResetMessage })

/-! ### Token exchange endpoint (api/auth-firebase-token.js) -/

/-- The response body shapes sent by the endpoint. -/
inductive ApiResponse where
  | success (data : String)
  | error (message : String)
deriving DecidableEq

/-- The auth-firebase-token handler: given the settled outcome of
    firebaseAdmin.auth().createCustomToken (a credential on success, an
    arbitrary upstream error value otherwise), the response sent. The
    upstream error type is a parameter: the catch branch sends a constant
    body that does not inspect the error. -/
def authFirebaseToken (α : Type) (minted : Except α String) : ApiResponse :=
  match minted with
  | Except.ok token => ApiResponse.success token
  | Except.error _ => ApiResponse.error firebaseTokenErrorMessage

/-! ### Concrete sample values used by the witnesses -/

/-- A sample plan mapping standing in for getFriendlyPlanId of prices.js. -/
def gfSample : String → String := fun _ => "basic"

/-- A sample Auth0 identity with the password provider id. -/
def sampleUser : AuthUser :=
  { sub := "auth0|abc123"
    email := "a@b.com"
    email_verified := true
    name := "Sam"
    picture := "https://example.com/p.png" }

/-- A sample identity whose sub carries an unknown provider id. -/
def unknownProviderUser : AuthUser :=
  { sub := "line|abc123"
    email := "a@b.com"
    email_verified := true
    name := "Sam"
    picture := "https://example.com/p.png" }

/-- A sample user record with a canceled subscription. -/
def sampleDbUser : DbUser :=
  { stripePriceId := some "price_basic"
    stripeSubscriptionStatus := some "canceled"
    extra := [] }

/-- The populated SessionUser obtained from sampleUser and sampleDbUser. -/
def sampleFinalUser : FinalUser :=
  { uid := "auth0|abc123"
    email := "a@b.com"
    emailVerified := true
    name := "Sam"
    picture := "https://example.com/p.png"
    providers := ["password"]
    dbData := some sampleDbUser
    planId := some "basic"
    planIsActive := some false }

/-! ## Shared lemmas about usePrepareUser -/

/-- With an unknown provider id the find over allProviders comes back empty and
    the JavaScript computation throws while reading its name field. -/
lemma prep_unknown_provider (gf : String → String) (u : AuthUser) (q : QueryResult)
    (hfind : allProviders.find? (fun p => p.id == providerIdOf u.sub) = none) :
    usePrepareUser gf (RawUser.signedIn u) q = none := by
  simp [usePrepareUser, hfind]

/-- With a known provider the hook produces a value for every query status. -/
lemma prep_found_isSome (gf : String → String) (u : AuthUser) (q : QueryResult)
    (prov : Provider)
    (hfind : allProviders.find? (fun p => p.id == providerIdOf u.sub) = some prov) :
    (usePrepareUser gf (RawUser.signedIn u) q).isSome = true := by
  cases q with
  | idle => simp [usePrepareUser, hfind, MERGE_DB_USER]
  | loading => simp [usePrepareUser, hfind, MERGE_DB_USER]
  | error e => simp [usePrepareUser, hfind, MERGE_DB_USER]
  | success data => cases data <;> simp [usePrepareUser, hfind, MERGE_DB_USER]

/-- The value of the success branch of usePrepareUser when a record exists. -/
lemma prep_found_success_some (gf : String → String) (u : AuthUser) (d : DbUser)
    (prov : Provider)
    (hfind : allProviders.find? (fun p => p.id == providerIdOf u.sub) = some prov) :
    usePrepareUser gf (RawUser.signedIn u) (QueryResult.success (some d)) =
      some (SessionUser.user
        { uid := u.sub
          email := u.email
          emailVerified := u.email_verified
          name := u.name
          picture := u.picture
          providers := [prov.name]
          dbData := some d
          planId :=
            if jsTruthyStr d.stripePriceId then
              some (gf (Option.getD d.stripePriceId emptyString))
            else none
          planIsActive :=
            some (match d.stripeSubscriptionStatus with
              | some s => s == activeStatus || s == trialingStatus
              | none => false) }) := by
  simp [usePrepareUser, hfind, MERGE_DB_USER]

/-- The table knownProviderIds is exactly the id column of allProviders. -/
lemma knownProviderIds_eq_map : knownProviderIds = allProviders.map Provider.id := rfl

/-- For an id of the table the find over allProviders succeeds. -/
lemma find_provider_isSome (pid : String) (h : pid ∈ knownProviderIds) :
    (allProviders.find? (fun p => p.id == pid)).isSome = true := by
  rw [knownProviderIds_eq_map] at h
  rcases List.mem_map.mp h with ⟨prov, hmem, hid⟩
  exact List.find?_isSome.mpr ⟨prov, hmem, by simp [hid]⟩

/-! ## Shared lemmas about handleAuth and the user-record store -/

/-- Running a handleAuth block changes the store exactly by its createUser
    step. -/
lemma runAuthActions_handleAuth_append (s : List (String × UserRecordFields))
    (u : AuthUser) (rest : List AuthAction) :
    runAuthActions s (handleAuth u ++ rest) =
      runAuthActions (createRecord s u.sub { email := u.email }) rest := by
  simp [handleAuth, runAuthActions]

/-- createRecord leaves a store that already holds the id untouched. -/
lemma createRecord_of_present (s : List (String × UserRecordFields)) (id : String)
    (f : UserRecordFields) (h : s.any (fun p => p.fst == id) = true) :
    createRecord s id f = s := by
  simp [createRecord, h]

/-- Replaying any number of handleAuth blocks over a store that already holds
    the identity leaves the store untouched. -/
lemma runAuthActions_replicate_of_present (u : AuthUser)
    (s : List (String × UserRecordFields)) (n : Nat)
    (h : s.any (fun p => p.fst == u.sub) = true) :
    runAuthActions s (List.flatten (List.replicate n (handleAuth u))) = s := by
  induction n with
  | zero => simp [runAuthActions]
  | succ m ih =>
    rw [List.replicate_succ, List.flatten_cons, runAuthActions_handleAuth_append,
      createRecord_of_present s u.sub _ h]
    exact ih

/-! ## The claims -/

/-- Claim C1: for every identity state and every user-record query result, the
    SessionUser value computed by usePrepareUser is one of exactly three
    shapes — null, false, or a populated object (the three constructors of
    SessionUser) — and each shape arises only in its lifecycle state: null is
    the result exactly from the loading states, false exactly from the
    signed-out state, and a populated object only from an authenticated
    identity whose record query succeeded with data, with the identity and
    record merged in. -/
theorem claim1_sessionUser_three_shapes (gf : String → String) (user : RawUser)
    (q : QueryResult) (v : SessionUser) (h : usePrepareUser gf user q = some v) :
    (user = RawUser.null → v = SessionUser.null) ∧
    (user = RawUser.false_ → v = SessionUser.false_) ∧
    (∀ fu, v = SessionUser.user fu →
      ∃ u d, user = RawUser.signedIn u ∧ q = QueryResult.success (some d) ∧
        fu.uid = u.sub ∧ fu.dbData = some d ∧ ∃ b, fu.planIsActive = some b) := by
  cases user with
  | null =>
    simp only [usePrepareUser, Option.some.injEq] at h
    subst h
    refine ⟨fun _ => rfl, by simp, ?_⟩
    intro fu hfu
    cases hfu
  | false_ =>
    simp only [usePrepareUser, Option.some.injEq] at h
    subst h
    refine ⟨by simp, fun _ => rfl, ?_⟩
    intro fu hfu
    cases hfu
  | signedIn u =>
    refine ⟨by simp, by simp, ?_⟩
    intro fu hfu
    subst hfu
    refine ⟨u, ?_⟩
    cases hfind : allProviders.find? (fun p => p.id == providerIdOf u.sub) with
    | none =>
      rw [prep_unknown_provider gf u q hfind] at h
      cases h
    | some prov =>
      cases q with
      | idle => simp [usePrepareUser, hfind, MERGE_DB_USER] at h
      | loading => simp [usePrepareUser, hfind, MERGE_DB_USER] at h
      | error e => simp [usePrepareUser, hfind, MERGE_DB_USER] at h
      | success data =>
        cases data with
        | none => simp [usePrepareUser, hfind, MERGE_DB_USER] at h
        | some d =>
          rw [prep_found_success_some gf u d prov hfind] at h
          simp only [Option.some.injEq, SessionUser.user.injEq] at h
          refine ⟨d, rfl, rfl, ?_, ?_, ?_⟩
          · rw [← h]
          · rw [← h]
          · rw [← h]
            exact ⟨_, rfl⟩

/-- Claim C1 witness: the populated shape at a concrete identity and record. -/
theorem claim1_witness :
    usePrepareUser gfSample (RawUser.signedIn sampleUser)
        (QueryResult.success (some sampleDbUser)) =
      some (SessionUser.user sampleFinalUser) ∧
    ((RawUser.signedIn sampleUser = RawUser.null →
        SessionUser.user sampleFinalUser = SessionUser.null) ∧
      (RawUser.signedIn sampleUser = RawUser.false_ →
        SessionUser.user sampleFinalUser = SessionUser.false_) ∧
      (∀ fu, SessionUser.user sampleFinalUser = SessionUser.user fu →
        ∃ u d, RawUser.signedIn sampleUser = RawUser.signedIn u ∧
          QueryResult.success (some sampleDbUser) = QueryResult.success (some d) ∧
          fu.uid = u.sub ∧ fu.dbData = some d ∧ ∃ b, fu.planIsActive = some b)) :=
  ⟨by decide,
    claim1_sessionUser_three_shapes gfSample (RawUser.signedIn sampleUser)
      (QueryResult.success (some sampleDbUser)) (SessionUser.user sampleFinalUser)
      (by decide)⟩

/-- Claim C2: for every user record merged into a populated SessionUser,
    planIsActive is true exactly when the record's subscription status is a
    member of the set of the active and trialing statuses; in particular for a
    canceled status planIsActive is false regardless of priceId. -/
theorem claim2_planIsActive_membership (gf : String → String) (user : RawUser)
    (d : DbUser) (fu : FinalUser)
    (h : usePrepareUser gf user (QueryResult.success (some d)) =
      some (SessionUser.user fu)) :
    (fu.planIsActive = some true ↔
      (d.stripeSubscriptionStatus = some activeStatus ∨
       d.stripeSubscriptionStatus = some trialingStatus)) ∧
    (d.stripeSubscriptionStatus = some canceledStatus →
      fu.planIsActive = some false) := by
  cases user with
  | null => simp [usePrepareUser] at h
  | false_ => simp [usePrepareUser] at h
  | signedIn u =>
    cases hfind : allProviders.find? (fun p => p.id == providerIdOf u.sub) with
    | none =>
      rw [prep_unknown_provider gf u _ hfind] at h
      cases h
    | some prov =>
      rw [prep_found_success_some gf u d prov hfind] at h
      simp only [Option.some.injEq, SessionUser.user.injEq] at h
      have hplan : fu.planIsActive =
          some (match d.stripeSubscriptionStatus with
            | some s => s == activeStatus || s == trialingStatus
            | none => false) := by rw [← h]
      constructor
      · rw [hplan]
        cases hs : d.stripeSubscriptionStatus with
        | none => simp
        | some s =>
          simp only [Option.some.injEq, Bool.or_eq_true, beq_iff_eq]
      · intro hc
        rw [hplan, hc]
        decide

/-- Claim C2 witness: a canceled record at a concrete populated SessionUser. -/
theorem claim2_witness :
    usePrepareUser gfSample (RawUser.signedIn sampleUser)
        (QueryResult.success (some sampleDbUser)) =
      some (SessionUser.user sampleFinalUser) ∧
    ((sampleFinalUser.planIsActive = some true ↔
        (sampleDbUser.stripeSubscriptionStatus = some activeStatus ∨
         sampleDbUser.stripeSubscriptionStatus = some trialingStatus)) ∧
      (sampleDbUser.stripeSubscriptionStatus = some canceledStatus →
        sampleFinalUser.planIsActive = some false)) :=
  ⟨by decide,
    claim2_planIsActive_membership gfSample (RawUser.signedIn sampleUser)
      sampleDbUser sampleFinalUser (by decide)⟩

/-- Claim C3: for every authenticated identity, if the user-record query has
    status success but data is null, the value the hook computes is
    SessionUser.null (still loading), never an empty or partially populated
    object. -/
theorem claim3_missing_record_is_loading (gf : String → String) (u : AuthUser)
    (v : SessionUser)
    (h : usePrepareUser gf (RawUser.signedIn u) (QueryResult.success none) = some v) :
    v = SessionUser.null := by
  cases hfind : allProviders.find? (fun p => p.id == providerIdOf u.sub) with
  | none =>
    rw [prep_unknown_provider gf u _ hfind] at h
    cases h
  | some prov =>
    simp [usePrepareUser, hfind, MERGE_DB_USER] at h
    exact h.symm

/-- Claim C3 witness: a concrete authenticated identity with a success query
    carrying no record. -/
theorem claim3_witness :
    usePrepareUser gfSample (RawUser.signedIn sampleUser) (QueryResult.success none) =
      some SessionUser.null ∧
    SessionUser.null = SessionUser.null :=
  ⟨by decide, claim3_missing_record_is_loading gfSample sampleUser SessionUser.null (by decide)⟩

/-- Claim C4: for every identity authenticated n times (n at least one), the
    user-record store ends up with exactly one record for the identity,
    already after the first handleAuth run; and within every handleAuth run
    the createUser step strictly precedes the setUser publication of the raw
    identity.  The create-if-absent store semantics is modelled from the spec
    because src/util/db.js is not among the sources. -/
theorem claim4_record_created_once (u : AuthUser) (n : Nat) (hn : 1 ≤ n) :
    (runAuthActions [] (List.flatten (List.replicate n (handleAuth u)))).countP
        (fun p => p.fst == u.sub) = 1 ∧
    runAuthActions [] (handleAuth u) = [(u.sub, { email := u.email })] ∧
    ∃ i j : Nat, i < j ∧
      (handleAuth u)[i]? = some (AuthAction.createUser u.sub u.email) ∧
      (handleAuth u)[j]? = some (AuthAction.setUser u) := by
  refine ⟨?_, by simp [handleAuth, runAuthActions, createRecord],
    ⟨2, 3, by decide, rfl, rfl⟩⟩
  obtain ⟨m, rfl⟩ : ∃ m, n = m + 1 := ⟨n - 1, (Nat.succ_pred_eq_of_pos hn).symm⟩
  rw [List.replicate_succ, List.flatten_cons, runAuthActions_handleAuth_append]
  have hcr : createRecord ([] : List (String × UserRecordFields)) u.sub
      { email := u.email } = [(u.sub, { email := u.email })] := by
    simp [createRecord]
  rw [hcr, runAuthActions_replicate_of_present u _ m (by simp)]
  simp [List.countP_cons]

/-- Claim C4 witness: two successive authentications of a concrete identity. -/
theorem claim4_witness :
    1 ≤ 2 ∧
    ((runAuthActions [] (List.flatten (List.replicate 2 (handleAuth sampleUser)))).countP
        (fun p => p.fst == sampleUser.sub) = 1 ∧
      runAuthActions [] (handleAuth sampleUser) =
        [(sampleUser.sub, { email := sampleUser.email })] ∧
      ∃ i j : Nat, i < j ∧
        (handleAuth sampleUser)[i]? =
          some (AuthAction.createUser sampleUser.sub sampleUser.email) ∧
        (handleAuth sampleUser)[j]? = some (AuthAction.setUser sampleUser)) :=
  ⟨by decide, claim4_record_created_once sampleUser 2 (by decide)⟩

/-- Claim C5: the route guard redirects to the sign-in route exactly when
    SessionUser is false; while SessionUser is null it renders the loading
    placeholder without redirecting, and for a populated SessionUser it
    renders the wrapped view. -/
theorem claim5_route_guard (su : SessionUser) :
    (requireAuthRedirect su = some signinRoute ↔ su = SessionUser.false_) ∧
    (requireAuthRender SessionUser.null = GuardView.pageLoader ∧
      requireAuthRedirect SessionUser.null = none) ∧
    (∀ fu, requireAuthRender (SessionUser.user fu) = GuardView.component ∧
      requireAuthRedirect (SessionUser.user fu) = none) := by
  refine ⟨?_, ⟨rfl, rfl⟩, fun fu => ⟨rfl, rfl⟩⟩
  cases su <;> simp [requireAuthRedirect]

/-- Claim C5 witness: the guard redirects at the false state. -/
theorem claim5_witness : requireAuthRedirect SessionUser.false_ = some signinRoute :=
  (claim5_route_guard SessionUser.false_).1.mpr rfl

/-- Claim C6: updateProfile on data holding only a (nonempty, hence truthy)
    email performs exactly one identity-provider write and exactly one store
    write, the identity-provider write strictly first, followed by the
    re-read of the canonical identity. -/
theorem claim6_updateProfile_email_only (uid e : String) (he : e.isEmpty = false) :
    updateProfile uid { email := some e, name := none, picture := none, extra := [] } =
      [ProfileAction.authUpdateEmail e,
       ProfileAction.dbUpdateUser uid
         { email := some e, name := none, picture := none, extra := [] },
       ProfileAction.authGetCurrentUser] ∧
    (updateProfile uid
        { email := some e, name := none, picture := none, extra := [] }).countP
      isIdentityWrite = 1 ∧
    (updateProfile uid
        { email := some e, name := none, picture := none, extra := [] }).countP
      isStoreWrite = 1 := by
  have h1 : updateProfile uid
      { email := some e, name := none, picture := none, extra := [] } =
      [ProfileAction.authUpdateEmail e,
       ProfileAction.dbUpdateUser uid
         { email := some e, name := none, picture := none, extra := [] },
       ProfileAction.authGetCurrentUser] := by
    simp [updateProfile, jsTruthyStr, he]
  refine ⟨h1, ?_, ?_⟩ <;> rw [h1] <;> rfl

/-- Claim C6 witness: a concrete email-only update. -/
theorem claim6_witness :
    String.isEmpty sampleUser.email = false ∧
    (updateProfile sampleUser.sub
        { email := some sampleUser.email, name := none, picture := none, extra := [] } =
      [ProfileAction.authUpdateEmail sampleUser.email,
       ProfileAction.dbUpdateUser sampleUser.sub
         { email := some sampleUser.email, name := none, picture := none, extra := [] },
       ProfileAction.authGetCurrentUser] ∧
      (updateProfile sampleUser.sub
          { email := some sampleUser.email, name := none, picture := none,
            extra := [] }).countP isIdentityWrite = 1 ∧
      (updateProfile sampleUser.sub
          { email := some sampleUser.email, name := none, picture := none,
            extra := [] }).countP isStoreWrite = 1) :=
  ⟨by decide, claim6_updateProfile_email_only sampleUser.sub sampleUser.email (by decide)⟩

/-- Claim C7: on any upstream failure of the token-minting call the endpoint
    responds with the one fixed generic error body, independent of the
    upstream error value and of its type, so no upstream detail reaches the
    caller; on success it responds with the success body carrying the
    credential. -/
theorem claim7_token_endpoint_fails_closed :
    (∀ (α : Type) (e : α),
      authFirebaseToken α (Except.error e) =
        ApiResponse.error firebaseTokenErrorMessage) ∧
    (∀ (α : Type) (e₁ e₂ : α),
      authFirebaseToken α (Except.error e₁) = authFirebaseToken α (Except.error e₂)) ∧
    (∀ t : String, authFirebaseToken String (Except.ok t) = ApiResponse.success t) :=
  ⟨fun _ _ => rfl, fun _ _ _ => rfl, fun _ => rfl⟩

/-- Claim C8: confirmPasswordReset rejects every input with the same fixed
    CustomError (stable code, explanatory message), performing no
    identity-provider or store call; since the outcome is always this error,
    it never succeeds. -/
theorem claim8_confirmPasswordReset_fixed_rejection :
    ∀ p c : String,
      confirmPasswordReset p c =
        ([], Except.error { code := notNeededCode, message := confirmPasswordResetMessage }) :=
  fun _ _ => rfl

/-- Claim C9: an identity-provider change notification carrying no user
    publishes the raw state false — never null — and the merge then yields
    SessionUser false for every query state and plan mapping. -/
theorem claim9_signout_publishes_false :
    onChangePublish none = RawUser.false_ ∧
    (∀ (gf : String → String) (q : QueryResult),
      usePrepareUser gf (onChangePublish none) q = some SessionUser.false_) :=
  ⟨rfl, fun _ _ => rfl⟩

/-- Claim C10: the SessionUser merge is total exactly on identities whose
    subjectId segment before the first pipe is one of the five provider ids of
    the allProviders table; outside that set the provider lookup finds no
    entry and the computation fails (none) rather than producing a value. -/
theorem claim10_provider_lookup_totality (gf : String → String) (u : AuthUser)
    (q : QueryResult) :
    usePrepareUser gf (RawUser.signedIn u) q = none ↔
      providerIdOf u.sub ∉ knownProviderIds := by
  constructor
  · intro h hmem
    rcases Option.isSome_iff_exists.mp (find_provider_isSome _ hmem) with ⟨prov, hfind⟩
    have hsome := prep_found_isSome gf u q prov hfind
    rw [h] at hsome
    simp at hsome
  · intro hmem
    have hfind : allProviders.find? (fun p => p.id == providerIdOf u.sub) = none := by
      rw [List.find?_eq_none]
      intro prov hmemp
      simp only [beq_iff_eq]
      intro heq
      exact hmem
        (by rw [knownProviderIds_eq_map, ← heq]; exact List.mem_map_of_mem Provider.id hmemp)
    exact prep_unknown_provider gf u q hfind

/-- Claim C10 witness: a concrete identity with an unknown provider id. -/
theorem claim10_witness :
    usePrepareUser gfSample (RawUser.signedIn unknownProviderUser) QueryResult.idle = none :=
  (claim10_provider_lookup_totality gfSample unknownProviderUser QueryResult.idle).mpr
    (by decide)

end DivjoyAuth
